import Mathlib

/-!
Shallow embedding of `agent.py` (monday_mcp): a minimal CLI chat agent that
discovers remote tool manifests over HTTP and wraps each manifest entry as a
locally callable stub, plus a read-eval-print chat loop.

External collaborators (the `requests` library's network transport, the `json`
parser, and the agent runtime) are modelled as explicit inputs: a network is a
function from a request to its outcome, and the result of `json.loads` on the
caller-supplied argument text is passed in as an `Except` value.  Everything
the script itself does — payload construction, control flow, exception
handling, string processing — is translated from the source.
-/

/-- JSON values, the data interchanged with both remote providers. -/
inductive Json where
  | null : Json
  | bool (b : Bool) : Json
  | num (n : Int) : Json
  | str (s : String) : Json
  | arr (elems : List Json) : Json
  | obj (fields : List (String × Json)) : Json

/-- Python exceptions that the script can raise or observe.  `httpError`
carries the status code, as `requests.exceptions.HTTPError` does. -/
inductive PyErr where
  | keyError : PyErr
  | typeError : PyErr
  | attributeError : PyErr
  | valueError : PyErr
  | httpError (status : Nat) : PyErr
  | netError : PyErr
deriving DecidableEq, Repr

/-- Indexing `t[k]` on a Python value holding JSON data: a dict lookup succeeds or
raises `KeyError`; indexing a non-dict with a string key raises `TypeError`. -/
def pyGetItem (j : Json) (k : String) : Except PyErr Json :=
  match j with
  | .obj fields =>
    match fields.lookup k with
    | some v => .ok v
    | none => .error .keyError
  | _ => .error .typeError

/-- Lookup `d.get(k, default)`: only dicts have `.get`; on anything else the
attribute access raises `AttributeError` (used for `handshake.get`). -/
def pyDictGet (j : Json) (k : String) (dflt : Json) : Except PyErr Json :=
  match j with
  | .obj fields => .ok ((fields.lookup k).getD dflt)
  | _ => .error .attributeError

/-- Iteration `for t in x`: iterating a list yields its elements; iterating a string
yields its one-character strings; iterating a dict yields its keys; iterating
a number, boolean or `None` raises `TypeError`. -/
def pyIter (j : Json) : Except PyErr (List Json) :=
  match j with
  | .arr elems => .ok elems
  | .str s => .ok (s.data.map fun c => Json.str (String.mk [c]))
  | .obj fields => .ok (fields.map fun kv => Json.str kv.1)
  | _ => .error .typeError

/-- Python `str()` conversion as used by the f-string
`f"{name_prefix}_{t['name']}"`.  Manifest names are strings in practice; the
branches for composite values are an approximation of Python's `repr` and are
never relied on by any theorem below. -/
def pyStr : Json → String
  | .str s => s
  | .num n => toString n
  | .bool b => if b then "True" else "False"
  | .null => "None"
  | .arr _ => "[...]"
  | .obj _ => "\x7b...\x7d"

/-- An HTTP GET request as issued by `requests.get(url, headers=…, timeout=…)`.
The timeout is in seconds. -/
structure GetRequest where
  url : String
  headers : List (String × String)
  timeout : Nat
deriving DecidableEq, Repr

/-- An HTTP POST request as issued by
`requests.post(url, json=body, headers=…, timeout=…)`. -/
structure PostRequest where
  url : String
  body : Json
  headers : List (String × String)
  timeout : Nat

/-- The observable outcome of a GET that returned a response: the HTTP status
code and the result of calling `.json()` on the body (`Except` because a
non-JSON body makes `.json()` raise).  The source never reads anything else
of the handshake response. -/
structure GetOutcome where
  status : Nat
  jsonBody : Except PyErr Json

/-- The observable outcome of a POST that returned a response: status code
and raw body text (the source reads `resp.status_code` via
`raise_for_status` and `resp.text`). -/
structure HttpResponse where
  status : Nat
  text : String
deriving DecidableEq, Repr

/-- Method `resp.raise_for_status()` raises `HTTPError` exactly for client-error and
server-error status codes, i.e. `400 ≤ status < 600`. -/
def raiseForStatusRaises (status : Nat) : Bool :=
  400 ≤ status && status < 600

/-- One generated stub, the embedding of one `FunctionTool(...)` the loop body
appends: the registered name, description and parameter schema (all computed
eagerly, per iteration), together with the data the closure `make_call` uses
at invocation time.

`boundTool` is the value the closure's free variable `t` has when the stub is
invoked.  In Python the inner `def make_call` closes over the loop VARIABLE
`t` of `build_sse_tools`, not over its value at definition time; all stubs of
one `build_sse_tools` call share that variable, and after the `for` loop ends
it holds the final element of the iterated list.  Stubs are only ever invoked
after `build_sse_tools` has returned, so every stub's `boundTool` is the last
manifest entry. -/
structure FunctionTool where
  name : String
  description : Json
  parameters : Json
  endpoint : String
  headers : List (String × String)
  boundTool : Json

/-- The discovery GET the adapter issues:
`requests.get(f"{endpoint}/mcp", headers=headers, timeout=10)`. -/
def discoveryRequest (endpoint : String) (headers : List (String × String)) :
    GetRequest :=
  { url := endpoint ++ "/mcp", headers := headers, timeout := 10 }

/-- The invocation POST a stub issues:
`requests.post(f"{endpoint}/call", json={"tool": name, "arguments": args}, headers=headers, timeout=15)`. -/
def callRequest (endpoint : String) (headers : List (String × String))
    (toolName : Json) (args : Json) : PostRequest :=
  { url := endpoint ++ "/call"
    body := Json.obj [("tool", toolName), ("arguments", args)]
    headers := headers
    timeout := 15 }

/-- The body of the inner closure `make_call(input_json)`, given the value of
the captured loop variable `t`, the result of `json.loads(input_json)` (the
JSON parser is an external library, so its verdict on the argument text is an
input), and the network.  Returns the list of POST requests actually issued
together with the Python-level result (`.ok` return value or `.error` raised
exception).

Order of effects, as in the source: the dict display evaluates `t["name"]`
first, then `json.loads(input_json)`; only if both succeed is the POST
issued; then `resp.raise_for_status()`; then `return resp.text`. -/
def make_call (endpoint : String) (headers : List (String × String))
    (t : Json) (loadsResult : Except PyErr Json)
    (net : PostRequest → Except PyErr HttpResponse) :
    List PostRequest × Except PyErr String :=
  match pyGetItem t "name" with
  | .error e => ([], .error e)
  | .ok toolName =>
    match loadsResult with
    | .error e => ([], .error e)
    | .ok args =>
      let req := callRequest endpoint headers toolName args
      match net req with
      | .error e => ([req], .error e)
      | .ok resp =>
        if raiseForStatusRaises resp.status then
          ([req], .error (.httpError resp.status))
        else
          ([req], .ok resp.text)

/-- Invoking a generated stub: the closure runs with the endpoint and headers
of its provider binding and with `t` bound to `boundTool`. -/
def invokeStub (ft : FunctionTool) (loadsResult : Except PyErr Json)
    (net : PostRequest → Except PyErr HttpResponse) :
    List PostRequest × Except PyErr String :=
  make_call ft.endpoint ft.headers ft.boundTool loadsResult net

/-- One iteration of the manifest loop, the part evaluated eagerly: the
f-string `f"{name_prefix}_{t['name']}"` (which reads `t["name"]`), then the
`FunctionTool(...)` keyword arguments `t["description"]` and
`t["inputSchema"]`.  Any missing key or non-dict entry raises. -/
def buildOne (pfx : String) (t : Json) :
    Except PyErr (String × Json × Json) := do
  let n ← pyGetItem t "name"
  let d ← pyGetItem t "description"
  let s ← pyGetItem t "inputSchema"
  .ok (pfx ++ "_" ++ pyStr n, d, s)

/-- The manifest loop over the already-extracted element list: builds the
eager data of each stub in order; the first exception aborts the whole
`build_sse_tools` body (all previously appended stubs are discarded by the
`except` handler). -/
def buildStubs (pfx : String) : List Json →
    Except PyErr (List (String × Json × Json))
  | [] => .ok []
  | t :: rest => do
    let one ← buildOne pfx t
    let more ← buildStubs pfx rest
    .ok (one :: more)

/-- The `try`-block body of `build_sse_tools` after the handshake JSON is in
hand: `handshake.get("tools", [])`, the `for` loop, and the final `return
tools`.  Each returned stub's `boundTool` is the last iterated element — see
`FunctionTool.boundTool`. -/
def build_sse_tools_core (endpoint : String) (pfx : String)
    (headers : List (String × String)) (handshake : Json) :
    Except PyErr (List FunctionTool) := do
  let toolsJson ← pyDictGet handshake "tools" (Json.arr [])
  let elems ← pyIter toolsJson
  let eager ← buildStubs pfx elems
  .ok (eager.map fun e =>
    { name := e.1, description := e.2.1, parameters := e.2.2
      endpoint := endpoint, headers := headers
      boundTool := elems.getLast?.getD Json.null })

/-- The full `try` pipeline of `build_sse_tools`: issue the discovery GET,
call `.json()` on the response (the status code is never consulted), then run
the manifest loop. -/
def discoveryPipeline (endpoint : String) (pfx : String)
    (headers : List (String × String))
    (net : GetRequest → Except PyErr GetOutcome) :
    Except PyErr (List FunctionTool) := do
  let out ← net (discoveryRequest endpoint headers)
  let handshake ← out.jsonBody
  build_sse_tools_core endpoint pfx headers handshake

/-- The warning text `logging.warning(f"Failed to load tools from {endpoint}: {e}")`
emits (the exception rendering is elided). -/
def warnMsg (endpoint : String) : String :=
  "Failed to load tools from " ++ endpoint

/-- Function `build_sse_tools(endpoint, name_prefix, headers)`: the whole function,
`except Exception` included.  Returns the stub list and the list of warnings
logged; any exception in the pipeline yields `([], one warning)`, so the
function itself never raises. -/
def build_sse_tools (endpoint : String) (pfx : String)
    (headers : List (String × String))
    (net : GetRequest → Except PyErr GetOutcome) :
    List FunctionTool × List String :=
  match discoveryPipeline endpoint pfx headers net with
  | .ok tools => (tools, [])
  | .error _ => ([], [warnMsg endpoint])

/-- The characters `str.strip()` removes: Python's string whitespace
(space, tab, newline, carriage return, vertical tab, form feed). -/
def pyIsSpace (c : Char) : Bool :=
  c = ' ' || c = '\t' || c = '\n' || c = '\r' || c = '\x0b' || c = '\x0c'

/-- Stripping `s.strip()`: drop leading and trailing whitespace. -/
def pyStrip (s : String) : String :=
  String.mk (((s.data.dropWhile pyIsSpace).reverse.dropWhile pyIsSpace).reverse)

/-- Lowercasing `str.lower()` on one character, for the ASCII range (the command words
`quit` and `exit` are ASCII; non-ASCII case mapping is not needed here). -/
def pyLowerChar (c : Char) : Char :=
  if 'A' ≤ c && c ≤ 'Z' then Char.ofNat (c.toNat + 32) else c

/-- Lowercasing `s.lower()`. -/
def pyLower (s : String) : String :=
  String.mk (s.data.map pyLowerChar)

/-- Test `user.strip().lower() in {"quit", "exit"}`, the loop's exit test. -/
def isQuitCommand (user : String) : Bool :=
  pyLower (pyStrip user) = "quit" || pyLower (pyStrip user) = "exit"

/-- One event of the agent runtime's response stream, as the loop observes
it: an optional `content` attribute and an optional `text` attribute, each a
textual value when present (`none` models a missing attribute; a present but
`None`/empty value behaves like `""` under Python truthiness, so it is
modelled as `some ""`). -/
structure RuntimeEvent where
  content : Option String
  text : Option String

/-- The loop body over one event:
`if hasattr(event, 'content') and event.content: final_response = event.content`
`elif hasattr(event, 'text'): final_response = event.text`.
Note the `elif` branch assigns `event.text` without a truthiness check. -/
def updateResponse (acc : String) (e : RuntimeEvent) : String :=
  match e.content with
  | some c => if c = "" then (match e.text with | some s => s | none => acc) else c
  | none => match e.text with | some s => s | none => acc

/-- Value of `final_response` after consuming the whole stream, starting from `""`. -/
def finalResponse (events : List RuntimeEvent) : String :=
  events.foldl updateResponse ""

/-- The fixed placeholder `print`ed when `final_response` is falsy. -/
def noResponsePlaceholder : String := "No response received."

/-- Printing `print(final_response or "No response received.")`. -/
def printedReply (events : List RuntimeEvent) : String :=
  if finalResponse events = "" then noResponsePlaceholder else finalResponse events

/-- Modelled from the spec: "retaining only the last non-empty textual
content observed".  The textual content one event contributes: its `content`
when non-empty, else its `text` when present and non-empty, else nothing.
Used only to compare the source's fold against the spec's description. -/
def observedTextual (e : RuntimeEvent) : Option String :=
  match e.content with
  | some c => if c = "" then (match e.text with
      | some s => if s = "" then none else some s
      | none => none) else some c
  | none => match e.text with
      | some s => if s = "" then none else some s
      | none => none

/-- Modelled from the spec: the last non-empty textual content observed in
the stream, if any — the value observed by the last event that observes
one. -/
def lastNonEmptyTextual : List RuntimeEvent → Option String
  | [] => none
  | e :: es =>
    match lastNonEmptyTextual es with
    | some v => some v
    | none => observedTextual e

/-- The chat-loop states of the spec's state machine that one loop iteration
can move between (`STARTING` precedes the loop; `PROCESSING` is the interior
of one iteration). -/
inductive LoopState where
  | awaitingInput : LoopState
  | terminated : LoopState
deriving DecidableEq, Repr

/-- What one processed turn prints: the reply (success path) or the
diagnostic of the caught exception (`except Exception as e` path). -/
inductive TurnOutput where
  | replied (text : String) : TurnOutput
  | errored (diagnostic : String) : TurnOutput
deriving DecidableEq, Repr

/-- The `try`/`except` turn body: forward the message, consume the stream,
print.  The runtime is external: its behaviour for this turn is either a
raised exception (anything thrown while forwarding or streaming, including
an exception propagated out of a stub invocation) or the list of events it
yields.  Either way the body completes and the loop continues. -/
def processTurn (runtime : Except String (List RuntimeEvent)) : TurnOutput :=
  match runtime with
  | .ok events => .replied (printedReply events)
  | .error e => .errored ("Error: " ++ e)

/-- One iteration of `while True`: read a line, test quit/exit, otherwise run
the turn body.  Returns the state after the iteration, the message forwarded
to the runtime (the raw input, forwarded only on non-quit turns), and what
was printed for the turn. -/
def loopStep (user : String) (runtime : Except String (List RuntimeEvent)) :
    LoopState × Option String × Option TurnOutput :=
  if isQuitCommand user then
    (.terminated, none, none)
  else
    (.awaitingInput, some user, some (processTurn runtime))

/-- Unfolding of a successful `buildOne`: each of the three key lookups
succeeded and the eager data is assembled from them. -/
lemma buildOne_ok (p : String) (t : Json) (one : String × Json × Json)
    (h : buildOne p t = .ok one) :
    ∃ n d s, pyGetItem t "name" = .ok n ∧ pyGetItem t "description" = .ok d ∧
      pyGetItem t "inputSchema" = .ok s ∧ one = (p ++ "_" ++ pyStr n, d, s) := by
  cases hn : pyGetItem t "name" with
  | error e => simp [buildOne, hn, Bind.bind, Except.bind] at h
  | ok n =>
    cases hd : pyGetItem t "description" with
    | error e => simp [buildOne, hn, hd, Bind.bind, Except.bind] at h
    | ok d =>
      cases hs : pyGetItem t "inputSchema" with
      | error e => simp [buildOne, hn, hd, hs, Bind.bind, Except.bind] at h
      | ok s =>
        refine ⟨n, d, s, rfl, rfl, rfl, ?_⟩
        simp [buildOne, hn, hd, hs, Bind.bind, Except.bind] at h
        exact h.symm

/-- Unfolding of a successful `buildStubs` step on a cons cell. -/
lemma buildStubs_cons_ok (p : String) (t : Json) (rest : List Json)
    (eager : List (String × Json × Json))
    (h : buildStubs p (t :: rest) = .ok eager) :
    ∃ one more, buildOne p t = .ok one ∧ buildStubs p rest = .ok more ∧
      eager = one :: more := by
  cases h1 : buildOne p t with
  | error e => simp [buildStubs, h1, Bind.bind, Except.bind] at h
  | ok one =>
    cases h2 : buildStubs p rest with
    | error e => simp [buildStubs, h1, h2, Bind.bind, Except.bind] at h
    | ok more =>
      refine ⟨one, more, rfl, rfl, ?_⟩
      simp [buildStubs, h1, h2, Bind.bind, Except.bind] at h
      exact h.symm

/-- A successful manifest loop produces one eager triple per entry, in order,
and the registered name of the `i`-th triple is the prefixed name of the
`i`-th manifest entry. -/
lemma buildStubs_names (p : String) :
    ∀ (elems : List Json) (eager : List (String × Json × Json)),
      buildStubs p elems = .ok eager →
      eager.length = elems.length ∧
      ∀ (i : Nat) (hi : i < elems.length) (hj : i < eager.length) (n : Json),
        pyGetItem (elems.get ⟨i, hi⟩) "name" = .ok n →
        (eager.get ⟨i, hj⟩).1 = p ++ "_" ++ pyStr n
  | [], eager, h => by
    simp [buildStubs] at h
    subst h
    exact ⟨rfl, fun i hi => absurd hi (Nat.not_lt_zero i)⟩
  | t :: rest, eager, h => by
    obtain ⟨one, more, h1, h2, heq⟩ := buildStubs_cons_ok p t rest eager h
    obtain ⟨hlen, hget⟩ := buildStubs_names p rest more h2
    subst heq
    refine ⟨by simpa using hlen, ?_⟩
    intro i hi hj n hn
    cases i with
    | zero =>
      obtain ⟨n', d, s, hn', _, _, hone⟩ := buildOne_ok p t one h1
      simp at hn
      rw [hn'] at hn
      cases hn
      simp [hone]
    | succ i =>
      simp at hn ⊢
      exact hget i (Nat.lt_of_succ_lt_succ hi) (Nat.lt_of_succ_lt_succ hj) n hn

/-- When the GET returns a response whose body parses, the pipeline is
exactly the manifest processing on that JSON value — in particular the HTTP
status code of the response plays no role. -/
lemma discoveryPipeline_ok (endpoint p : String) (hs : List (String × String))
    (net : GetRequest → Except PyErr GetOutcome) (out : GetOutcome)
    (handshake : Json)
    (hnet : net (discoveryRequest endpoint hs) = .ok out)
    (hjson : out.jsonBody = .ok handshake) :
    discoveryPipeline endpoint p hs net =
      build_sse_tools_core endpoint p hs handshake := by
  simp [discoveryPipeline, hnet, hjson, Bind.bind, Except.bind]

/-- A two-entry manifest: tools named `a` and `b`, both well-formed. -/
def toolEntryA : Json :=
  Json.obj [("name", Json.str "a"), ("description", Json.str "da"),
            ("inputSchema", Json.obj [])]

def toolEntryB : Json :=
  Json.obj [("name", Json.str "b"), ("description", Json.str "db"),
            ("inputSchema", Json.obj [])]

def manifestTwoTools : Json := Json.obj [("tools", Json.arr [toolEntryA, toolEntryB])]

/-- A network on which discovery succeeds (status 200) with the two-entry
manifest. -/
def netTwoTools : GetRequest → Except PyErr GetOutcome :=
  fun _ => .ok ⟨200, .ok manifestTwoTools⟩

/-- A network on which every tool-invocation POST succeeds with body
`"ok-body"`. -/
def netPostOk : PostRequest → Except PyErr HttpResponse :=
  fun _ => .ok ⟨200, "ok-body"⟩

/-- Claim C1 — the claim fails on the code (code bug).  From the two-entry
manifest, the first generated stub is registered as `p_a` (generated from the
entry named `a`), yet invoking it with the valid JSON argument `{}` issues
its one POST with tool name `b`: the closure `make_call` reads the loop
variable `t`, which after the loop holds the *last* manifest entry, so every
stub of a multi-entry manifest invokes the last tool. -/
theorem stub_invokes_with_last_entry_name :
    (build_sse_tools "E" "p" [] netTwoTools).1.map FunctionTool.name = ["p_a", "p_b"]
    ∧ ((build_sse_tools "E" "p" [] netTwoTools).1.head?.map
        (fun ft => (invokeStub ft (.ok (Json.obj [])) netPostOk).1))
      = some [callRequest "E" [] (Json.str "b") (Json.obj [])]
    ∧ Json.str "b" ≠ Json.str "a" := by
  refine ⟨rfl, rfl, fun h => ?_⟩
  injection h with h2
  exact absurd h2 (by decide)

/-- A network whose discovery response is an HTTP 500 whose body nevertheless
parses as the two-entry manifest. -/
def netHttpError : GetRequest → Except PyErr GetOutcome :=
  fun _ => .ok ⟨500, .ok manifestTwoTools⟩

/-- Claim C2 counterexample: a discovery GET answered with HTTP status 500 and
a JSON body is a failure ("HTTP error") by the claim, but nothing is caught
or logged — the status code is never inspected — and the result is not the
empty list: two stubs are built from the error response's body. -/
theorem http_error_discovery_unlogged :
    netHttpError (discoveryRequest "E" []) = .ok ⟨500, .ok manifestTwoTools⟩
    ∧ (build_sse_tools "E" "p" [] netHttpError).2 = []
    ∧ (build_sse_tools "E" "p" [] netHttpError).1.length = 2 :=
  ⟨rfl, rfl, rfl⟩

/-- Claim C2 (amended): `build_sse_tools` never raises to its caller, and any
*exception* during discovery (network error, non-JSON body, missing keys on
a tool entry) is caught and turned into an empty list plus one logged
warning; the HTTP status of the discovery response, however, is never
checked, so an HTTP error status with a JSON body is processed as if it
were a manifest.  Either way one provider's discovery failure cannot abort
the other's: the function always returns. -/
theorem build_sse_tools_never_raises (endpoint p : String)
    (hs : List (String × String)) (net : GetRequest → Except PyErr GetOutcome) :
    (∀ e, discoveryPipeline endpoint p hs net = .error e →
      build_sse_tools endpoint p hs net = ([], [warnMsg endpoint]))
    ∧ ∀ tools, discoveryPipeline endpoint p hs net = .ok tools →
      build_sse_tools endpoint p hs net = (tools, []) := by
  constructor
  · intro e he
    simp [build_sse_tools, he]
  · intro tools ht
    simp [build_sse_tools, ht]

/-- Concrete instance of `build_sse_tools_never_raises`: a network error on
discovery yields the empty list and one warning. -/
theorem build_sse_tools_never_raises_witness :
    build_sse_tools "E" "p" [] (fun _ => .error PyErr.netError)
      = ([], [warnMsg "E"]) :=
  (build_sse_tools_never_raises "E" "p" [] (fun _ => .error PyErr.netError)).1
    PyErr.netError rfl

/-- A network whose discovery fetch succeeds (status 200, JSON body) but
whose manifest contains one malformed entry (an object with no keys). -/
def netMalformedEntry : GetRequest → Except PyErr GetOutcome :=
  fun _ => .ok ⟨200, .ok (Json.obj [("tools", Json.arr [Json.obj []])])⟩

/-- Claim C7 counterexample: the fetch itself succeeds (HTTP 200, valid JSON),
yet a warning is logged, because the malformed tool entry raises `KeyError`
inside the loop and the one `except` handler logs every exception of the
whole body — so "a warning is logged only when the fetch itself failed" is
false on the code. -/
theorem warning_despite_successful_fetch :
    netMalformedEntry (discoveryRequest "E" [])
      = .ok ⟨200, .ok (Json.obj [("tools", Json.arr [Json.obj []])])⟩
    ∧ (build_sse_tools "E" "p" [] netMalformedEntry).2 = [warnMsg "E"] :=
  ⟨rfl, rfl⟩

/-- Claim C7 (amended): a successfully fetched manifest whose tools list is
empty yields the empty stub sequence with no warning; and a warning is
logged exactly when the discovery pipeline raised an exception — which
covers fetch failures but also malformed manifest content after a
successful fetch. -/
theorem empty_manifest_no_warning (endpoint p : String)
    (hs : List (String × String)) (net : GetRequest → Except PyErr GetOutcome) :
    (∀ (out : GetOutcome) (handshake : Json),
      net (discoveryRequest endpoint hs) = .ok out →
      out.jsonBody = .ok handshake →
      pyDictGet handshake "tools" (Json.arr []) = .ok (Json.arr []) →
      build_sse_tools endpoint p hs net = ([], []))
    ∧ ((build_sse_tools endpoint p hs net).2 ≠ [] ↔
        ∃ e, discoveryPipeline endpoint p hs net = .error e) := by
  constructor
  · intro out handshake hnet hjson hdg
    have hpipe := discoveryPipeline_ok endpoint p hs net out handshake hnet hjson
    have hcore : build_sse_tools_core endpoint p hs handshake = .ok [] := by
      simp [build_sse_tools_core, hdg, pyIter, buildStubs, Bind.bind, Except.bind]
    simp [build_sse_tools, hpipe, hcore]
  · cases hp : discoveryPipeline endpoint p hs net with
    | error e => simp [build_sse_tools, hp]
    | ok tools => simp [build_sse_tools, hp]

/-- A network answering discovery with an empty-tools manifest. -/
def netEmptyManifest : GetRequest → Except PyErr GetOutcome :=
  fun _ => .ok ⟨200, .ok (Json.obj [("tools", Json.arr [])])⟩

/-- Concrete instance of `empty_manifest_no_warning`: an empty manifest gives
no stubs and no warning. -/
theorem empty_manifest_no_warning_witness :
    build_sse_tools "E" "p" [] netEmptyManifest = ([], []) :=
  (empty_manifest_no_warning "E" "p" [] netEmptyManifest).1
    ⟨200, .ok (Json.obj [("tools", Json.arr [])])⟩
    (Json.obj [("tools", Json.arr [])]) rfl rfl rfl

/-- Claim C6: whenever discovery yields stubs, the stub generated from the
`i`-th manifest entry, whose name is the string `s`, is registered under
exactly the name `prefix ++ "_" ++ s` — the prefixed name is computed
eagerly, per iteration, so it is not affected by the closure's late binding. -/
theorem stub_registered_name (endpoint p : String)
    (hs : List (String × String)) (net : GetRequest → Except PyErr GetOutcome)
    (out : GetOutcome) (handshake tj : Json) (entries : List Json)
    (hnet : net (discoveryRequest endpoint hs) = .ok out)
    (hjson : out.jsonBody = .ok handshake)
    (hdg : pyDictGet handshake "tools" (Json.arr []) = .ok tj)
    (hit : pyIter tj = .ok entries)
    (i : Nat) (hi : i < entries.length) (s : String)
    (hname : pyGetItem (entries.get ⟨i, hi⟩) "name" = .ok (Json.str s)) :
    ∀ (hj : i < (build_sse_tools endpoint p hs net).1.length),
      ((build_sse_tools endpoint p hs net).1.get ⟨i, hj⟩).name
        = p ++ "_" ++ s := by
  have hpipe := discoveryPipeline_ok endpoint p hs net out handshake hnet hjson
  cases hbs : buildStubs p entries with
  | error e =>
    have hcore : build_sse_tools_core endpoint p hs handshake = .error e := by
      simp [build_sse_tools_core, hdg, hit, hbs, Bind.bind, Except.bind]
    intro hj
    rw [show build_sse_tools endpoint p hs net = ([], [warnMsg endpoint]) by
      simp [build_sse_tools, hpipe, hcore]] at hj
    exact absurd hj (by simp)
  | ok eager =>
    have hcore : build_sse_tools_core endpoint p hs handshake
        = .ok (eager.map fun e =>
            { name := e.1, description := e.2.1, parameters := e.2.2
              endpoint := endpoint, headers := hs
              boundTool := entries.getLast?.getD Json.null }) := by
      simp [build_sse_tools_core, hdg, hit, hbs, Bind.bind, Except.bind]
    have hbuild : build_sse_tools endpoint p hs net
        = (eager.map fun e =>
            { name := e.1, description := e.2.1, parameters := e.2.2
              endpoint := endpoint, headers := hs
              boundTool := entries.getLast?.getD Json.null }, []) := by
      simp [build_sse_tools, hpipe, hcore]
    obtain ⟨hlen, hget⟩ := buildStubs_names p entries eager hbs
    intro hj
    have hj' : i < eager.length := by
      rw [hbuild] at hj
      simpa using hj
    have := hget i hi hj' (Json.str s) hname
    simp only [hbuild, List.get_eq_getElem, List.getElem_map]
    simp only [List.get_eq_getElem] at this
    rw [this]
    rfl

/-- Concrete instance of `generated_stub_name_prefixed` at prefix `monday`
and the single-tool manifest of the spec's scenario: the one stub is named
`monday_create_item`. -/
def manifestCreateItem : Json :=
  Json.obj [("tools", Json.arr [Json.obj
    [("name", Json.str "create_item"), ("description", Json.str "x"),
     ("inputSchema", Json.obj [])]])]

def netCreateItem : GetRequest → Except PyErr GetOutcome :=
  fun _ => .ok ⟨200, .ok manifestCreateItem⟩

theorem stub_registered_name_witness :
    ((build_sse_tools "E" "monday" [] netCreateItem).1.get
        ⟨0, by decide⟩).name = "monday" ++ "_" ++ "create_item" :=
  stub_registered_name "E" "monday" [] netCreateItem
    ⟨200, .ok manifestCreateItem⟩ manifestCreateItem
    (Json.arr [Json.obj
      [("name", Json.str "create_item"), ("description", Json.str "x"),
       ("inputSchema", Json.obj [])]])
    [Json.obj
      [("name", Json.str "create_item"), ("description", Json.str "x"),
       ("inputSchema", Json.obj [])]]
    rfl rfl rfl rfl 0 (by decide) "create_item" rfl (by decide)

/-- Claim C8: a stub invocation whose POST comes back with a real HTTP status
(< 600) issues exactly that one request, returns the raw response body text
unchanged when the status is a success (`< 400`, the boundary of
`raise_for_status`), and raises `HTTPError` — surfacing the failure to the
stub's caller — when it is not; in both cases the request list is a
singleton: no retry, no handling inside the adapter. -/
theorem stub_invocation_result (endpoint : String) (hs : List (String × String))
    (t nm args : Json) (net : PostRequest → Except PyErr HttpResponse)
    (resp : HttpResponse)
    (hname : pyGetItem t "name" = .ok nm)
    (hnet : net (callRequest endpoint hs nm args) = .ok resp)
    (hstatus : resp.status < 600) :
    make_call endpoint hs t (.ok args) net =
      if resp.status < 400 then
        ([callRequest endpoint hs nm args], .ok resp.text)
      else
        ([callRequest endpoint hs nm args], .error (.httpError resp.status)) := by
  rw [make_call, hname]
  simp only [hnet]
  by_cases h4 : resp.status < 400
  · have : raiseForStatusRaises resp.status = false := by
      simp [raiseForStatusRaises]
      omega
    simp [this, h4]
  · have : raiseForStatusRaises resp.status = true := by
      simp [raiseForStatusRaises]
      omega
    simp [this, h4]

/-- Concrete instance of `stub_invocation_result`: a 200 response makes the
stub return the raw body, having issued the one POST. -/
theorem stub_invocation_result_witness :
    make_call "E" [] toolEntryA (.ok (Json.obj [])) netPostOk
      = ([callRequest "E" [] (Json.str "a") (Json.obj [])], .ok "ok-body") := by
  have h := stub_invocation_result "E" [] toolEntryA (Json.str "a")
    (Json.obj []) netPostOk ⟨200, "ok-body"⟩ rfl rfl (by decide)
  simpa using h

/-- Claim C9: the discovery GET carries the fixed timeout of 10 seconds, and
every POST a stub invocation issues carries the fixed timeout of 15
seconds. -/
theorem fixed_timeouts (endpoint : String) (hs : List (String × String))
    (t : Json) (loads : Except PyErr Json)
    (net : PostRequest → Except PyErr HttpResponse) :
    (discoveryRequest endpoint hs).timeout = 10
    ∧ ∀ req ∈ (make_call endpoint hs t loads net).1, req.timeout = 15 := by
  refine ⟨rfl, ?_⟩
  intro req hreq
  rw [make_call] at hreq
  cases hn : pyGetItem t "name" with
  | error e =>
    rw [hn] at hreq
    simp at hreq
  | ok nm =>
    rw [hn] at hreq
    cases loads with
    | error e => simp at hreq
    | ok args =>
      cases hnet : net (callRequest endpoint hs nm args) with
      | error e =>
        simp [hnet] at hreq
        subst hreq
        rfl
      | ok resp =>
        by_cases hr : raiseForStatusRaises resp.status
        · simp [hnet, hr] at hreq
          subst hreq
          rfl
        · simp [hnet, hr] at hreq
          subst hreq
          rfl

/-- Concrete instance of `fixed_timeouts`: the discovery GET for endpoint `E`
has timeout 10, and the POST issued by the invocation of the tool named `a`
has timeout 15. -/
theorem fixed_timeouts_witness :
    (discoveryRequest "E" []).timeout = 10
    ∧ (callRequest "E" [] (Json.str "a") (Json.obj [])).timeout = 15 := by
  refine ⟨(fixed_timeouts "E" [] toolEntryA (.ok (Json.obj [])) netPostOk).1, ?_⟩
  refine (fixed_timeouts "E" [] toolEntryA (.ok (Json.obj [])) netPostOk).2
    (callRequest "E" [] (Json.str "a") (Json.obj [])) ?_
  rw [show (make_call "E" [] toolEntryA (.ok (Json.obj [])) netPostOk).1
    = [callRequest "E" [] (Json.str "a") (Json.obj [])] from rfl]
  exact List.mem_singleton.mpr rfl

/-- Claim C10: when `json.loads` rejects the caller-supplied argument text, the
invocation raises before any network request: no POST is issued and the
result is a raised exception. -/
theorem invalid_json_no_post (endpoint : String) (hs : List (String × String))
    (t : Json) (err : PyErr) (net : PostRequest → Except PyErr HttpResponse) :
    (make_call endpoint hs t (.error err) net).1 = []
    ∧ ∃ e, (make_call endpoint hs t (.error err) net).2 = .error e := by
  rw [make_call]
  cases hn : pyGetItem t "name" with
  | error e => exact ⟨rfl, e, rfl⟩
  | ok nm => exact ⟨rfl, err, rfl⟩

/-- Claim C3: one loop iteration either terminates — exactly when the input is
the quit/exit command — or processes the turn and returns to awaiting input;
a turn whose runtime interaction raised (including an exception propagated
out of a Tool Stub invocation) still returns to awaiting input, printing the
`Error: …` diagnostic. -/
theorem chat_loop_state_machine (u : String)
    (r : Except String (List RuntimeEvent)) :
    ((loopStep u r).1 = LoopState.terminated ↔ isQuitCommand u = true)
    ∧ (isQuitCommand u = false → (loopStep u r).1 = LoopState.awaitingInput)
    ∧ (∀ e, isQuitCommand u = false → r = .error e →
        (loopStep u r).2.2 = some (TurnOutput.errored ("Error: " ++ e))) := by
  by_cases hq : isQuitCommand u
  · simp [loopStep, hq]
  · simp only [Bool.not_eq_true] at hq
    refine ⟨?_, ?_, ?_⟩
    · simp [loopStep, hq]
    · intro _
      simp [loopStep, hq]
    · intro e _ hr
      simp [loopStep, hq, hr, processTurn]

/-- Concrete instance of `chat_loop_state_machine`: a non-quit input whose
turn raises returns to awaiting input with the diagnostic printed. -/
theorem chat_loop_state_machine_witness :
    (loopStep "list my boards" (Except.error "boom")).1 = LoopState.awaitingInput
    ∧ (loopStep "list my boards" (Except.error "boom")).2.2
        = some (TurnOutput.errored ("Error: " ++ "boom")) :=
  ⟨(chat_loop_state_machine "list my boards" (Except.error "boom")).2.1 rfl,
   (chat_loop_state_machine "list my boards" (Except.error "boom")).2.2
     "boom" rfl rfl⟩

/-- Claim C4: the loop terminates on an input exactly when its
whitespace-stripped, lowercased form is `quit` or `exit`; every other input
is forwarded verbatim as the turn's message to the agent runtime. -/
theorem quit_exit_terminates (u : String)
    (r : Except String (List RuntimeEvent)) :
    ((loopStep u r).1 = LoopState.terminated ↔
      (pyLower (pyStrip u) = "quit" ∨ pyLower (pyStrip u) = "exit"))
    ∧ (¬(pyLower (pyStrip u) = "quit" ∨ pyLower (pyStrip u) = "exit") →
        (loopStep u r).2.1 = some u) := by
  by_cases hq : pyLower (pyStrip u) = "quit" ∨ pyLower (pyStrip u) = "exit"
  · have hqc : isQuitCommand u = true := by
      rcases hq with h | h <;> simp [isQuitCommand, h]
    simp [loopStep, hqc, hq]
  · have hqc : isQuitCommand u = false := by
      simp only [isQuitCommand, Bool.or_eq_false_iff, decide_eq_false_iff_not]
      exact ⟨fun h => hq (Or.inl h), fun h => hq (Or.inr h)⟩
    simp [loopStep, hqc, hq]

/-- Concrete instance of `quit_exit_terminates`: `"  QUIT \t"` terminates the
loop; `"hello"` does not and is forwarded. -/
theorem quit_exit_terminates_witness :
    (loopStep "  QUIT \t" (Except.ok [])).1 = LoopState.terminated
    ∧ (loopStep "hello" (Except.ok [])).2.1 = some "hello" :=
  ⟨(quit_exit_terminates "  QUIT \t" (Except.ok [])).1.mpr (Or.inl (by decide)),
   (quit_exit_terminates "hello" (Except.ok [])).2 (by decide)⟩


/-- A textual value `observedTextual` reports is never the empty string. -/
lemma observedTextual_ne_empty (e : RuntimeEvent) (v : String)
    (h : observedTextual e = some v) : v ≠ "" := by
  rcases e with ⟨content, text⟩
  rcases content with _ | c
  · rcases text with _ | s
    · cases h
    · by_cases hse : s = ""
      · simp [observedTextual, hse] at h
      · simp [observedTextual, hse] at h
        rw [← h]
        exact hse
  · by_cases hce : c = ""
    · rcases text with _ | s
      · simp [observedTextual, hce] at h
      · by_cases hse : s = ""
        · simp [observedTextual, hce, hse] at h
        · simp [observedTextual, hce, hse] at h
          rw [← h]
          exact hse
    · simp [observedTextual, hce] at h
      rw [← h]
      exact hce

/-- The last non-empty textual content of a stream is never the empty
string. -/
lemma lastNonEmptyTextual_ne_empty :
    ∀ (events : List RuntimeEvent) (v : String),
      lastNonEmptyTextual events = some v → v ≠ ""
  | [], v, h => by cases h
  | e :: es, v, h => by
    rw [lastNonEmptyTextual] at h
    cases hl : lastNonEmptyTextual es with
    | some w =>
      rw [hl] at h
      cases h
      exact lastNonEmptyTextual_ne_empty es v hl
    | none =>
      rw [hl] at h
      exact observedTextual_ne_empty e v h

/-- On one event whose `text` attribute, if present, is non-empty, the loop
body's assignment agrees with "keep the observed textual content, else keep
the previous value". -/
lemma updateResponse_eq_observed (acc : String) (e : RuntimeEvent)
    (he : ∀ s, e.text = some s → s ≠ "") :
    updateResponse acc e = (observedTextual e).getD acc := by
  rcases e with ⟨content, text⟩
  rcases content with _ | c
  · rcases text with _ | s
    · rfl
    · have hs : s ≠ "" := he s rfl
      simp [updateResponse, observedTextual, hs]
  · by_cases hce : c = ""
    · rcases text with _ | s
      · simp [updateResponse, observedTextual, hce]
      · have hs : s ≠ "" := he s rfl
        simp [updateResponse, observedTextual, hce, hs]
    · simp [updateResponse, observedTextual, hce]

/-- On a stream in which every present `text` attribute is non-empty, the
source's fold computes the spec's last non-empty textual content, with the
accumulator as the default. -/
lemma foldl_updateResponse_eq (events : List RuntimeEvent)
    (h : ∀ e ∈ events, ∀ s, e.text = some s → s ≠ "") :
    ∀ acc, events.foldl updateResponse acc
      = (lastNonEmptyTextual events).getD acc := by
  induction events with
  | nil => intro acc; rfl
  | cons e es ih =>
    intro acc
    have hes : ∀ x ∈ es, ∀ s, x.text = some s → s ≠ "" :=
      fun x hx => h x (List.mem_cons_of_mem e hx)
    have he : ∀ s, e.text = some s → s ≠ "" := h e (List.mem_cons_self e es)
    rw [List.foldl_cons, ih hes (updateResponse acc e), lastNonEmptyTextual]
    cases hl : lastNonEmptyTextual es with
    | some w => rfl
    | none => exact updateResponse_eq_observed acc e he

/-- The stream refuting C5: a first event carrying the non-empty content
`hello`, then an event with no `content` attribute and an empty `text`
attribute (which the `elif` branch assigns without a truthiness check). -/
def eventsOverwrittenByEmptyText : List RuntimeEvent :=
  [⟨some "hello", none⟩, ⟨none, some ""⟩]

/-- Claim C5 counterexample: on that stream the last non-empty textual content
observed is `hello`, yet the loop prints the placeholder — the second
event's empty `text` overwrites `final_response` because the `elif` branch
tests only attribute presence, not non-emptiness. -/
theorem reply_clobbered_by_empty_text :
    lastNonEmptyTextual eventsOverwrittenByEmptyText = some "hello"
    ∧ printedReply eventsOverwrittenByEmptyText = noResponsePlaceholder
    ∧ noResponsePlaceholder ≠ "hello" :=
  ⟨rfl, rfl, by decide⟩

/-- Claim C5 (amended): provided no event of the stream carries a present but
empty `text` attribute, the printed reply is the last non-empty textual
content observed among the events, and the placeholder exactly when none was
produced.  (Without that proviso an empty `text` attribute can overwrite a
previously retained reply, as the counterexample shows.) -/
theorem printed_reply_last_nonempty (events : List RuntimeEvent)
    (h : ∀ e ∈ events, ∀ s, e.text = some s → s ≠ "") :
    printedReply events = (lastNonEmptyTextual events).getD noResponsePlaceholder := by
  have hfold := foldl_updateResponse_eq events h ""
  rw [printedReply, finalResponse, hfold]
  cases hl : lastNonEmptyTextual events with
  | none => rfl
  | some v =>
    have hv := lastNonEmptyTextual_ne_empty events v hl
    simp [hv]

/-- Concrete instance of `printed_reply_last_nonempty`: a stream with one
non-empty `text` event prints that text. -/
theorem printed_reply_last_nonempty_witness :
    printedReply [⟨none, some "a text reply"⟩]
      = (lastNonEmptyTextual [⟨none, some "a text reply"⟩]).getD noResponsePlaceholder := by
  refine printed_reply_last_nonempty [⟨none, some "a text reply"⟩] ?_
  intro e he s hs
  rw [List.mem_singleton] at he
  subst he
  simp at hs
  subst hs
  decide
